import Mathlib

/-!
Verification of the speaker-filter core of the argdown panel package: the
functions `extractSpeakers` and `buildSpeakerMutations`, embedded from the
TypeScript source. JavaScript objects iterated via `Object.entries` and
`Object.values` are modelled as ordered association lists; JavaScript `Set`
insertion is modelled as duplicate-avoiding append; machine integers do not
occur (priorities are the literals 10 and 0).
-/

namespace ArgdownPanels

/-- Item carrying an optional tag list: arguments and statements expose only an
optional `tags: string[]` to the functions under study. -/
structure TaggedItem where
  tags : Option (List String)
deriving DecidableEq

/-- Rendered graph node (an entry of `response.map.nodes`): an `id` and
optional `tags`. -/
structure MapNode where
  id : String
  tags : Option (List String)
deriving DecidableEq

/-- Rendered map (`response.map`), keeping the one field the code reads:
`nodes`, which may itself be absent. -/
structure MapData where
  nodes : Option (List MapNode)
deriving DecidableEq

/-- One entry of the top-level tag array: a plain string, or an object whose
`tag` and `title` fields are each optional. -/
inductive TagEntry where
  | str (s : String)
  | obj (tag : Option String) (title : Option String)
deriving DecidableEq

/-- Top-level tag collection of a parsed response: the code distinguishes an
array of entries from an object whose keys are the tag names. -/
inductive ResponseTags where
  | arr (entries : List TagEntry)
  | obj (keys : List String)
deriving DecidableEq

/-- Fields of `data.response` read by `extractSpeakers` and
`buildSpeakerMutations`. `arguments` and `statements` are JavaScript objects,
modelled as ordered association lists; JavaScript guarantees the keys of one
object are pairwise distinct, and proofs that need this invariant carry it as
an explicit hypothesis. -/
structure Response where
  tags : Option ResponseTags
  arguments : Option (List (String × TaggedItem))
  statements : Option (List (String × TaggedItem))
  map : Option MapData
deriving DecidableEq

/-- The `ArgdownMapData` input: the code only reads `data.response`, which may
be absent. -/
structure ArgdownMapData where
  response : Option Response
deriving DecidableEq

/-- The `FilterOptions` input. The mutation builder reads only `speakers`; the
remaining fields are carried so that non-interference can be stated. -/
structure FilterOptions where
  speakers : Option (List String)
  argumentTypes : Option (List String)
  tags : Option (List String)
  showClaims : Option Bool
  showArguments : Option Bool
deriving DecidableEq

/-- Mutation effect: the string union `'emphasize' | 'dim'`. -/
inductive Effect where
  | emphasize
  | dim
deriving DecidableEq

/-- Output directive `NodeMutation`: node ids, effect, reason, priority. -/
structure NodeMutation where
  nodeIds : List String
  effect : Effect
  reason : String
  priority : Nat
deriving DecidableEq

/-- JavaScript `x || y || ''` on two optional strings: the first truthy
(present and non-empty) value, else the empty string. -/
def jsOrElse (x y : Option String) : String :=
  let xs := x.getD ""
  if xs = "" then y.getD "" else xs

/-- Resolution of one top-level tag entry:
`typeof tag === 'string' ? tag : tag?.tag || tag?.title || ''`. -/
def TagEntry.resolve : TagEntry → String
  | .str s => s
  | .obj tag title => jsOrElse tag title

/-- Insertion into a JavaScript `Set`, modelled as a duplicate-free list kept
in insertion order. -/
def setAdd (s : List String) (x : String) : List String :=
  if x ∈ s then s else s ++ [x]

/-- JavaScript `s.startsWith(p)`, modelled on the character sequence. -/
def strStartsWith (s p : String) : Bool := p.data.isPrefixOf s.data

/-- JavaScript `s.includes(c)` for a one-character pattern, modelled on the
character sequence. -/
def strContainsChar (s : String) (c : Char) : Bool := s.data.contains c

/-- Dropping the first `n` characters of a string. -/
def strDrop (s : String) (n : Nat) : String := ⟨s.data.drop n⟩

/-- Suffix of a tag after the `speaker-` marker. The code uses
`tag.replace('speaker-', '')`, which replaces only the first occurrence of the
pattern; under the `startsWith('speaker-')` guard that always holds where it is
called, this equals dropping the eight-character marker. -/
def speakerSuffix (t : String) : String := strDrop t 8

/-- Speaker-set contribution of one argument or statement tag list:
`speaker-`-prefixed tags contribute their suffix, hyphen-free tags are added
verbatim as potential speaker names. -/
def addItemTags (acc : List String) (item : TaggedItem) : List String :=
  (item.tags.getD []).foldl (fun acc tag =>
    if strStartsWith tag "speaker-" then setAdd acc (speakerSuffix tag)
    else if !(strContainsChar tag '-') then setAdd acc tag
    else acc) acc

/-- Speaker-set contribution of the top-level tag collection: only
`speaker-`-prefixed entries (resolved to strings) or keys contribute. -/
def addResponseTags (tags : Option ResponseTags) : List String :=
  match tags with
  | some (.arr entries) =>
    entries.foldl (fun acc e =>
      let tagStr := TagEntry.resolve e
      if strStartsWith tagStr "speaker-" then setAdd acc (speakerSuffix tagStr)
      else acc) []
  | some (.obj keys) =>
    keys.foldl (fun acc k =>
      if strStartsWith k "speaker-" then setAdd acc (speakerSuffix k) else acc) []
  | none => []

/-- Model of `extractSpeakers`: scan the top-level tags, every argument's tags
and every statement's tags, accumulating speaker names into a set, and return
the sorted sequence (`Array.from(speakers).sort()`). -/
def extractSpeakers (data : ArgdownMapData) : List String :=
  match data.response with
  | none => []
  | some response =>
    let s1 := addResponseTags response.tags
    let s2 := (response.arguments.getD []).foldl (fun acc p => addItemTags acc p.2) s1
    let s3 := (response.statements.getD []).foldl (fun acc p => addItemTags acc p.2) s2
    s3.mergeSort (fun a b => decide (a ≤ b))

/-- Filter-match set: `[...speakerTags, ...filters.speakers]`, where
`speakerTags` prefixes each requested speaker with `speaker-`. -/
def allFilterTags (speakers : List String) : List String :=
  speakers.map (fun s => "speaker-" ++ s) ++ speakers

/-- Whether some acceptable filter tag occurs in the given tag list:
`allFilterTags.some(tag => tags.includes(tag))`. -/
def matchesFilter (fts : List String) (tags : List String) : Bool :=
  fts.any (fun tag => tags.contains tag)

/-- Whether a statement carries a speaker-like tag:
`stmtTags.some(t => t.startsWith('speaker-') || !t.includes('-'))`. -/
def hasSpeakerTag (tags : List String) : Bool :=
  tags.any (fun t => strStartsWith t "speaker-" || !(strContainsChar t '-'))

/-- The argument loop: each argument id is appended to the matching list when
its tags intersect the filter set, otherwise to the non-matching list. -/
def classifyArguments (args : List (String × TaggedItem)) (fts : List String)
    (acc : List String × List String) : List String × List String :=
  args.foldl (fun acc p =>
    if matchesFilter fts (p.2.tags.getD []) then (acc.1 ++ [p.1], acc.2)
    else (acc.1, acc.2 ++ [p.1])) acc

/-- The statement loop: a statement with no speaker-like tag is always
matching; otherwise it matches exactly when its tags intersect the filter
set. -/
def classifyStatements (stmts : List (String × TaggedItem)) (fts : List String)
    (acc : List String × List String) : List String × List String :=
  stmts.foldl (fun acc p =>
    if !hasSpeakerTag (p.2.tags.getD []) || matchesFilter fts (p.2.tags.getD []) then
      (acc.1 ++ [p.1], acc.2)
    else (acc.1, acc.2 ++ [p.1])) acc

/-- The map-node scan: a node id not classified yet is appended to the
matching list when its tags intersect the filter set, and left unclassified
otherwise (never auto-dimmed). -/
def scanMapNodes (nodes : List MapNode) (fts : List String)
    (acc : List String × List String) : List String × List String :=
  nodes.foldl (fun acc node =>
    if !(acc.1.contains node.id) && !(acc.2.contains node.id) then
      if matchesFilter fts (node.tags.getD []) then (acc.1 ++ [node.id], acc.2)
      else acc
    else acc) acc

/-- Matching and non-matching node id lists for a response and a requested
speaker list, built in the order of the code: arguments, then statements, then
rendered map nodes. -/
def speakerClassification (response : Response) (speakers : List String) :
    List String × List String :=
  let fts := allFilterTags speakers
  let acc1 := classifyArguments (response.arguments.getD []) fts ([], [])
  let acc2 := classifyStatements (response.statements.getD []) fts acc1
  scanMapNodes ((response.map.bind MapData.nodes).getD []) fts acc2

/-- Model of `buildSpeakerMutations`: short-circuit to the empty sequence when
the response is absent or the speaker list is absent or empty; otherwise emit
the emphasize mutation (when the matching list is non-empty) followed by the
dim mutation (when the non-matching list is non-empty). -/
def buildSpeakerMutations (data : ArgdownMapData) (filters : FilterOptions) :
    List NodeMutation :=
  match data.response, filters.speakers with
  | some response, some speakers =>
    if speakers.isEmpty then []
    else
      let mn := speakerClassification response speakers
      (if mn.1.isEmpty then []
       else [⟨mn.1, Effect.emphasize,
              "Speaker: " ++ String.intercalate ", " speakers, 10⟩]) ++
      (if mn.2.isEmpty then []
       else [⟨mn.2, Effect.dim, "Not matching filter", 0⟩])
  | _, _ => []

/-- Node ids carried by the first emitted mutation with the given effect
(there is at most one per effect). -/
def effectIds (muts : List NodeMutation) (e : Effect) : List String :=
  ((muts.find? (fun m => decide (m.effect = e))).map NodeMutation.nodeIds).getD []

/-- Keys of the arguments map. -/
def argKeys (r : Response) : List String := (r.arguments.getD []).map Prod.fst

/-- Keys of the statements map. -/
def stmtKeys (r : Response) : List String := (r.statements.getD []).map Prod.fst

/-- Ids of the rendered graph's nodes. -/
def mapNodeIds (r : Response) : List String :=
  ((r.map.bind MapData.nodes).getD []).map MapNode.id

/-- Whether an argument entry matches the filter set (the condition of the
argument loop, abstracted over one entry). -/
def argMatches (fts : List String) (p : String × TaggedItem) : Bool :=
  matchesFilter fts (p.2.tags.getD [])

/-- Whether a statement entry matches (the condition of the statement loop,
abstracted over one entry). -/
def stmtMatches (fts : List String) (p : String × TaggedItem) : Bool :=
  !hasSpeakerTag (p.2.tags.getD []) || matchesFilter fts (p.2.tags.getD [])

/-- The response of the spec example: statements `{a: no tags}`, arguments
`{b: tags ["speaker-x"], c: tags ["speaker-y"]}`. -/
def exResponseX : Response :=
  ⟨none, some [("b", ⟨some ["speaker-x"]⟩), ("c", ⟨some ["speaker-y"]⟩)],
   some [("a", ⟨none⟩)], none⟩

/-- Example data wrapping `exResponseX`. -/
def exDataX : ArgdownMapData := ⟨some exResponseX⟩

/-- Example filter requesting speaker `x`. -/
def exFiltersX : FilterOptions := ⟨some ["x"], none, none, none, none⟩

/-- A response where the same identifier `x` is a key of the arguments map and
the statements map, with conflicting classifications under speaker `a`. -/
def exResponseShared : Response :=
  ⟨none, some [("x", ⟨some ["speaker-a"]⟩)], some [("x", ⟨some ["speaker-b"]⟩)], none⟩

/-- Example data wrapping `exResponseShared`. -/
def exDataShared : ArgdownMapData := ⟨some exResponseShared⟩

/-- Example filter requesting speaker `a`. -/
def exFiltersA : FilterOptions := ⟨some ["a"], none, none, none, none⟩

/-- A response where the identifier `n` names both an untagged statement and a
non-matching argument. -/
def exResponseN : Response :=
  ⟨none, some [("n", ⟨some ["speaker-y"]⟩)], some [("n", ⟨none⟩)], none⟩

/-- Example data wrapping `exResponseN`. -/
def exDataN : ArgdownMapData := ⟨some exResponseN⟩

/-- Example filter requesting speaker `z`. -/
def exFiltersZ : FilterOptions := ⟨some ["z"], none, none, none, none⟩

/-- A response whose rendered map holds two node records with the same id
`g`, the first with no matching tag and the second with the bare tag `a`. -/
def exResponseG : Response :=
  ⟨none, none, none, some ⟨some [⟨"g", some []⟩, ⟨"g", some ["a"]⟩]⟩⟩

/-- Example data wrapping `exResponseG`. -/
def exDataG : ArgdownMapData := ⟨some exResponseG⟩

/-- A response carrying one argument `b` with the hyphen-free informal tag
`alice`. -/
def exResponseAlice : Response :=
  ⟨none, some [("b", ⟨some ["alice"]⟩)], none, none⟩

/-- Example data wrapping `exResponseAlice`. -/
def exDataAlice : ArgdownMapData := ⟨some exResponseAlice⟩

/-- Example filter requesting speaker `alice`. -/
def exFiltersAlice : FilterOptions := ⟨some ["alice"], none, none, none, none⟩

/-- A filter that agrees with `exFiltersX` on `speakers` but sets every other
field. -/
def exFiltersXFull : FilterOptions :=
  ⟨some ["x"], some ["support"], some ["topic"], some true, some false⟩

theorem classifyArguments_cons (p : String × TaggedItem)
    (args : List (String × TaggedItem)) (fts : List String)
    (acc : List String × List String) :
    classifyArguments (p :: args) fts acc =
      classifyArguments args fts
        (if argMatches fts p then (acc.1 ++ [p.1], acc.2)
         else (acc.1, acc.2 ++ [p.1])) := rfl

theorem classifyArguments_eq (args : List (String × TaggedItem))
    (fts : List String) (acc : List String × List String) :
    classifyArguments args fts acc =
      (acc.1 ++ (args.filter (argMatches fts)).map Prod.fst,
       acc.2 ++ (args.filter (fun p => !argMatches fts p)).map Prod.fst) := by
  induction args generalizing acc with
  | nil => simp [classifyArguments]
  | cons p args ih =>
    rw [classifyArguments_cons]
    by_cases h : argMatches fts p
    · rw [ih]
      simp [List.filter_cons, h]
    · rw [ih]
      simp [List.filter_cons, h]

theorem classifyStatements_cons (p : String × TaggedItem)
    (stmts : List (String × TaggedItem)) (fts : List String)
    (acc : List String × List String) :
    classifyStatements (p :: stmts) fts acc =
      classifyStatements stmts fts
        (if stmtMatches fts p then (acc.1 ++ [p.1], acc.2)
         else (acc.1, acc.2 ++ [p.1])) := rfl

theorem classifyStatements_eq (stmts : List (String × TaggedItem))
    (fts : List String) (acc : List String × List String) :
    classifyStatements stmts fts acc =
      (acc.1 ++ (stmts.filter (stmtMatches fts)).map Prod.fst,
       acc.2 ++ (stmts.filter (fun p => !stmtMatches fts p)).map Prod.fst) := by
  induction stmts generalizing acc with
  | nil => simp [classifyStatements]
  | cons p stmts ih =>
    rw [classifyStatements_cons]
    by_cases h : stmtMatches fts p
    · rw [ih]
      simp [List.filter_cons, h]
    · rw [ih]
      simp [List.filter_cons, h]

theorem scanMapNodes_cons (node : MapNode) (nodes : List MapNode)
    (fts : List String) (acc : List String × List String) :
    scanMapNodes (node :: nodes) fts acc =
      scanMapNodes nodes fts
        (if !(acc.1.contains node.id) && !(acc.2.contains node.id) then
          (if matchesFilter fts (node.tags.getD []) then
            (acc.1 ++ [node.id], acc.2)
           else acc)
         else acc) := rfl

theorem scanMapNodes_snd (nodes : List MapNode) (fts : List String)
    (acc : List String × List String) :
    (scanMapNodes nodes fts acc).2 = acc.2 := by
  induction nodes generalizing acc with
  | nil => rfl
  | cons node nodes ih =>
    rw [scanMapNodes_cons]
    split
    · split
      · exact ih _
      · exact ih _
    · exact ih _

theorem scanStep_fst_sub (node : MapNode) (fts : List String)
    (acc : List String × List String) (x : String)
    (hx : x ∈ (if !(acc.1.contains node.id) && !(acc.2.contains node.id) then
          (if matchesFilter fts (node.tags.getD []) then
            (acc.1 ++ [node.id], acc.2)
           else acc)
         else acc).1) :
    x ∈ acc.1 ∨ (node.id = x ∧ matchesFilter fts (node.tags.getD []) = true) := by
  split at hx
  · split at hx
    next hm =>
      rcases List.mem_append.mp hx with h' | h'
      · exact Or.inl h'
      · exact Or.inr ⟨(List.mem_singleton.mp h').symm, hm⟩
    next => exact Or.inl hx
  · exact Or.inl hx

theorem mem_scanMapNodes_fst (nodes : List MapNode) (fts : List String)
    (acc : List String × List String) (x : String)
    (hx : x ∈ (scanMapNodes nodes fts acc).1) :
    x ∈ acc.1 ∨
      ∃ n, n ∈ nodes ∧ n.id = x ∧ matchesFilter fts (n.tags.getD []) = true := by
  induction nodes generalizing acc with
  | nil => exact Or.inl hx
  | cons node nodes ih =>
    rw [scanMapNodes_cons] at hx
    rcases ih _ hx with h | ⟨n, hn, hnx, hm⟩
    · rcases scanStep_fst_sub node fts acc x h with h' | ⟨hid, hm⟩
      · exact Or.inl h'
      · exact Or.inr ⟨node, List.mem_cons_self _ _, hid, hm⟩
    · exact Or.inr ⟨n, List.mem_cons_of_mem _ hn, hnx, hm⟩

theorem mem_scanMapNodes_fst_of_mem (nodes : List MapNode) (fts : List String)
    (acc : List String × List String) (x : String) (hx : x ∈ acc.1) :
    x ∈ (scanMapNodes nodes fts acc).1 := by
  induction nodes generalizing acc with
  | nil => exact hx
  | cons node nodes ih =>
    rw [scanMapNodes_cons]
    apply ih
    split
    · split
      · exact List.mem_append_left _ hx
      · exact hx
    · exact hx

theorem scanMapNodes_disjoint (nodes : List MapNode) (fts : List String)
    (acc : List String × List String)
    (hacc : ∀ x, x ∈ acc.1 → x ∉ acc.2) :
    ∀ x, x ∈ (scanMapNodes nodes fts acc).1 →
      x ∉ (scanMapNodes nodes fts acc).2 := by
  induction nodes generalizing acc with
  | nil => exact hacc
  | cons node nodes ih =>
    rw [scanMapNodes_cons]
    apply ih
    split
    next hcond =>
      simp at hcond
      split
      · intro x hx1 hx2
        rcases List.mem_append.mp hx1 with h' | h'
        · exact hacc x h' hx2
        · have hx := List.mem_singleton.mp h'
          subst hx
          exact hcond.2 hx2
      · exact hacc
    next => exact hacc

theorem mem_map_fst_filter_sub {γ : Type} (l : List (String × γ))
    (p : String × γ → Bool) (x : String)
    (hx : x ∈ (l.filter p).map Prod.fst) : x ∈ l.map Prod.fst := by
  rcases List.mem_map.mp hx with ⟨a, ha, rfl⟩
  exact List.mem_map.mpr ⟨a, (List.mem_filter.mp ha).1, rfl⟩

theorem map_fst_filter_not_both {γ : Type} (l : List (String × γ))
    (hnd : (l.map Prod.fst).Nodup) (p : String × γ → Bool) (x : String)
    (h1 : x ∈ (l.filter p).map Prod.fst)
    (h2 : x ∈ (l.filter (fun a => !p a)).map Prod.fst) : False := by
  rcases List.mem_map.mp h1 with ⟨a, ha, hax⟩
  rcases List.mem_map.mp h2 with ⟨b, hb, hbx⟩
  rcases List.mem_filter.mp ha with ⟨haL, hap⟩
  rcases List.mem_filter.mp hb with ⟨hbL, hbp⟩
  have hab : a = b := List.inj_on_of_nodup_map hnd haL hbL (hax.trans hbx.symm)
  subst hab
  simp [hap] at hbp

theorem speakerClassification_def (r : Response) (l : List String) :
    speakerClassification r l =
      scanMapNodes ((r.map.bind MapData.nodes).getD []) (allFilterTags l)
        (classifyStatements (r.statements.getD []) (allFilterTags l)
          (classifyArguments (r.arguments.getD []) (allFilterTags l) ([], []))) := rfl

theorem classification_acc (r : Response) (l : List String) :
    classifyStatements (r.statements.getD []) (allFilterTags l)
      (classifyArguments (r.arguments.getD []) (allFilterTags l) ([], [])) =
    (((r.arguments.getD []).filter (argMatches (allFilterTags l))).map Prod.fst ++
       ((r.statements.getD []).filter (stmtMatches (allFilterTags l))).map Prod.fst,
     ((r.arguments.getD []).filter
         (fun p => !argMatches (allFilterTags l) p)).map Prod.fst ++
       ((r.statements.getD []).filter
         (fun p => !stmtMatches (allFilterTags l) p)).map Prod.fst) := by
  rw [classifyArguments_eq, classifyStatements_eq]
  simp

theorem speakerClassification_snd (r : Response) (l : List String) :
    (speakerClassification r l).2 =
      ((r.arguments.getD []).filter
        (fun p => !argMatches (allFilterTags l) p)).map Prod.fst ++
      ((r.statements.getD []).filter
        (fun p => !stmtMatches (allFilterTags l) p)).map Prod.fst := by
  rw [speakerClassification_def, scanMapNodes_snd, classification_acc]

theorem mem_speakerClassification_fst (r : Response) (l : List String) (x : String)
    (hx : x ∈ (speakerClassification r l).1) :
    x ∈ ((r.arguments.getD []).filter (argMatches (allFilterTags l))).map Prod.fst ++
        ((r.statements.getD []).filter (stmtMatches (allFilterTags l))).map Prod.fst ∨
    ∃ n, n ∈ (r.map.bind MapData.nodes).getD [] ∧ n.id = x ∧
      matchesFilter (allFilterTags l) (n.tags.getD []) = true := by
  rw [speakerClassification_def] at hx
  rcases mem_scanMapNodes_fst _ _ _ _ hx with h | h
  · rw [classification_acc] at h
    exact Or.inl h
  · exact Or.inr h

theorem mem_speakerClassification_fst_of_acc (r : Response) (l : List String)
    (x : String)
    (hx : x ∈ ((r.arguments.getD []).filter
          (argMatches (allFilterTags l))).map Prod.fst ++
        ((r.statements.getD []).filter (stmtMatches (allFilterTags l))).map Prod.fst) :
    x ∈ (speakerClassification r l).1 := by
  rw [speakerClassification_def]
  apply mem_scanMapNodes_fst_of_mem
  rw [classification_acc]
  exact hx

theorem speakerClassification_disjoint (r : Response) (l : List String)
    (hA : (argKeys r).Nodup) (hS : (stmtKeys r).Nodup)
    (hAS : ∀ x, x ∈ argKeys r → x ∉ stmtKeys r) :
    ∀ x, x ∈ (speakerClassification r l).1 → x ∉ (speakerClassification r l).2 := by
  rw [speakerClassification_def]
  apply scanMapNodes_disjoint
  rw [classification_acc]
  intro x hx1 hx2
  rcases List.mem_append.mp hx1 with h1 | h1 <;>
    rcases List.mem_append.mp hx2 with h2 | h2
  · exact map_fst_filter_not_both _ hA _ x h1 h2
  · exact hAS x (mem_map_fst_filter_sub _ _ x h1) (mem_map_fst_filter_sub _ _ x h2)
  · exact hAS x (mem_map_fst_filter_sub _ _ x h2) (mem_map_fst_filter_sub _ _ x h1)
  · exact map_fst_filter_not_both _ hS _ x h1 h2

theorem bSM_nil_cases (data : ArgdownMapData) (filters : FilterOptions)
    (h : data.response = none ∨ filters.speakers = none ∨
      filters.speakers = some []) :
    buildSpeakerMutations data filters = [] := by
  unfold buildSpeakerMutations
  rcases h with h | h | h
  · rw [h]
  · rw [h]
    rcases data.response with _ | r <;> rfl
  · rw [h]
    rcases data.response with _ | r <;> rfl

theorem buildSpeakerMutations_some (data : ArgdownMapData)
    (filters : FilterOptions) (r : Response) (l : List String)
    (hr : data.response = some r) (hl : filters.speakers = some l)
    (hne : l.isEmpty = false) :
    buildSpeakerMutations data filters =
      (if (speakerClassification r l).1.isEmpty then []
       else [⟨(speakerClassification r l).1, Effect.emphasize,
              "Speaker: " ++ String.intercalate ", " l, 10⟩]) ++
      (if (speakerClassification r l).2.isEmpty then []
       else [⟨(speakerClassification r l).2, Effect.dim,
              "Not matching filter", 0⟩]) := by
  unfold buildSpeakerMutations
  rw [hr, hl]
  simp [hne]

theorem effectIds_construction (M N : List String) (reasonE : String) :
    effectIds ((if M.isEmpty then []
        else [⟨M, Effect.emphasize, reasonE, 10⟩]) ++
      (if N.isEmpty then []
        else [⟨N, Effect.dim, "Not matching filter", 0⟩])) Effect.emphasize = M ∧
    effectIds ((if M.isEmpty then []
        else [⟨M, Effect.emphasize, reasonE, 10⟩]) ++
      (if N.isEmpty then []
        else [⟨N, Effect.dim, "Not matching filter", 0⟩])) Effect.dim = N := by
  cases M with
  | nil =>
    cases N with
    | nil => exact ⟨rfl, rfl⟩
    | cons b N => exact ⟨rfl, rfl⟩
  | cons a M =>
    cases N with
    | nil => exact ⟨rfl, rfl⟩
    | cons b N => exact ⟨rfl, rfl⟩

theorem emphasizeIds_eq (data : ArgdownMapData) (filters : FilterOptions)
    (r : Response) (l : List String) (hr : data.response = some r)
    (hl : filters.speakers = some l) (hne : l.isEmpty = false) :
    effectIds (buildSpeakerMutations data filters) Effect.emphasize =
      (speakerClassification r l).1 := by
  rw [buildSpeakerMutations_some data filters r l hr hl hne]
  exact (effectIds_construction _ _ _).1

theorem dimIds_eq (data : ArgdownMapData) (filters : FilterOptions)
    (r : Response) (l : List String) (hr : data.response = some r)
    (hl : filters.speakers = some l) (hne : l.isEmpty = false) :
    effectIds (buildSpeakerMutations data filters) Effect.dim =
      (speakerClassification r l).2 := by
  rw [buildSpeakerMutations_some data filters r l hr hl hne]
  exact (effectIds_construction _ _ _).2

theorem setAdd_nodup (s : List String) (x : String) (h : s.Nodup) :
    (setAdd s x).Nodup := by
  unfold setAdd
  split
  · exact h
  next hx => simp [List.nodup_append, h, hx]

theorem foldl_nodup {β : Type} (f : List String → β → List String)
    (hf : ∀ acc b, acc.Nodup → (f acc b).Nodup) (l : List β) :
    ∀ acc : List String, acc.Nodup → (l.foldl f acc).Nodup := by
  induction l with
  | nil => exact fun acc h => h
  | cons b l ih => exact fun acc h => ih _ (hf acc b h)

theorem addItemTags_nodup (acc : List String) (item : TaggedItem)
    (h : acc.Nodup) : (addItemTags acc item).Nodup := by
  unfold addItemTags
  apply foldl_nodup
  · intro acc' tag h'
    dsimp only
    split
    · exact setAdd_nodup _ _ h'
    · split
      · exact setAdd_nodup _ _ h'
      · exact h'
  · exact h

theorem addResponseTags_nodup (tags : Option ResponseTags) :
    (addResponseTags tags).Nodup := by
  unfold addResponseTags
  cases tags with
  | none => exact List.nodup_nil
  | some t =>
    cases t with
    | arr entries =>
      apply foldl_nodup
      · intro acc' e h'
        dsimp only
        split
        · exact setAdd_nodup _ _ h'
        · exact h'
      · exact List.nodup_nil
    | obj keys =>
      apply foldl_nodup
      · intro acc' k h'
        dsimp only
        split
        · exact setAdd_nodup _ _ h'
        · exact h'
      · exact List.nodup_nil

theorem mergeSort_sorted_le (l : List String) :
    List.Sorted (fun a b : String => a ≤ b)
      (l.mergeSort (fun a b => decide (a ≤ b))) := by
  have h : (l.mergeSort (fun a b => decide (a ≤ b))).Pairwise
      (fun a b : String => decide (a ≤ b) = true) :=
    List.sorted_mergeSort
      (fun (a b c : String) (h1 : decide (a ≤ b) = true)
          (h2 : decide (b ≤ c) = true) =>
        decide_eq_true (le_trans (of_decide_eq_true h1) (of_decide_eq_true h2)))
      (fun a b => by rcases le_total a b with h | h <;> simp [h]) l
  exact h.imp (fun h' => of_decide_eq_true h')

theorem mergeSort_nodup_le (l : List String) (h : l.Nodup) :
    (l.mergeSort (fun a b => decide (a ≤ b))).Nodup :=
  (List.mergeSort_perm l _).nodup_iff.mpr h

/-- C1: for every data and filters input, if the data has no response
structure, or the filters' speakers list is absent or empty, then
`buildSpeakerMutations` returns an empty sequence. -/
theorem buildSpeakerMutations_empty_of_no_filter (data : ArgdownMapData)
    (filters : FilterOptions)
    (h : data.response = none ∨ filters.speakers = none ∨
      filters.speakers = some []) :
    buildSpeakerMutations data filters = [] :=
  bSM_nil_cases data filters h

/-- Witness for C1, at concrete data with no response structure. -/
theorem buildSpeakerMutations_empty_of_no_filter_check :
    buildSpeakerMutations ⟨none⟩ ⟨none, none, none, none, none⟩ = [] :=
  buildSpeakerMutations_empty_of_no_filter ⟨none⟩ ⟨none, none, none, none, none⟩
    (Or.inl rfl)

/-- C2 counterexample: when the identifier `x` is a key of both the arguments
map and the statements map, it is carried by the emphasize mutation and by the
dim mutation, so the two id sets are not disjoint. -/
theorem emphasize_dim_overlap_example :
    "x" ∈ effectIds (buildSpeakerMutations exDataShared exFiltersA)
        Effect.emphasize ∧
    "x" ∈ effectIds (buildSpeakerMutations exDataShared exFiltersA)
        Effect.dim := by decide

/-- C2 (amended): the emphasize and dim id sets are disjoint provided the
argument keys are pairwise distinct, the statement keys are pairwise distinct,
and no identifier is simultaneously an argument key and a statement key — the
first two conditions hold for every JavaScript object; the third does not. -/
theorem emphasize_dim_disjoint_of_unique_keys (data : ArgdownMapData)
    (filters : FilterOptions)
    (hA : ∀ r, data.response = some r → (argKeys r).Nodup)
    (hS : ∀ r, data.response = some r → (stmtKeys r).Nodup)
    (hAS : ∀ r, data.response = some r → ∀ x, x ∈ argKeys r → x ∉ stmtKeys r) :
    ∀ x, x ∈ effectIds (buildSpeakerMutations data filters) Effect.emphasize →
      x ∉ effectIds (buildSpeakerMutations data filters) Effect.dim := by
  cases hd : data.response with
  | none =>
    rw [bSM_nil_cases data filters (Or.inl hd)]
    intro x hx
    simp [effectIds] at hx
  | some r =>
    cases hl : filters.speakers with
    | none =>
      rw [bSM_nil_cases data filters (Or.inr (Or.inl hl))]
      intro x hx
      simp [effectIds] at hx
    | some l =>
      cases hne : l.isEmpty
      case true =>
        rw [List.isEmpty_iff.mp hne] at hl
        rw [bSM_nil_cases data filters (Or.inr (Or.inr hl))]
        intro x hx
        simp [effectIds] at hx
      case false =>
        rw [emphasizeIds_eq data filters r l hd hl hne,
          dimIds_eq data filters r l hd hl hne]
        exact speakerClassification_disjoint r l (hA r hd) (hS r hd) (hAS r hd)

/-- Witness for amended C2, at the spec example data where the key sets are
disjoint: the matching argument `b` is not carried by the dim mutation. -/
theorem emphasize_dim_disjoint_check :
    ("b" : String) ∉ effectIds (buildSpeakerMutations exDataX exFiltersX)
      Effect.dim :=
  emphasize_dim_disjoint_of_unique_keys exDataX exFiltersX
    (fun r hr => by rw [← Option.some.inj hr]; decide)
    (fun r hr => by rw [← Option.some.inj hr]; decide)
    (fun r hr => by rw [← Option.some.inj hr]; decide)
    "b" (by decide)

/-- C3 counterexample: the identifier `n` names an untagged statement, yet it
is carried by the dim mutation, because `n` is also the key of a non-matching
argument. -/
theorem untagged_statement_dimmed_example :
    ("n", (⟨none⟩ : TaggedItem)) ∈ exResponseN.statements.getD [] ∧
    "n" ∈ effectIds (buildSpeakerMutations exDataN exFiltersZ)
      Effect.dim := by decide

/-- C3 (amended): with a response present and a non-empty speaker list, every
statement whose tag sequence is empty or absent has its identifier in the
emphasize mutation; it is moreover absent from the dim mutation provided the
statement keys are pairwise distinct and the identifier is not also a key of
the arguments map. -/
theorem untagged_statement_emphasized (data : ArgdownMapData)
    (filters : FilterOptions) (r : Response) (l : List String)
    (sid : String) (st : TaggedItem)
    (hr : data.response = some r) (hl : filters.speakers = some l)
    (hne : l.isEmpty = false)
    (hmem : (sid, st) ∈ r.statements.getD [])
    (htags : st.tags.getD [] = [])
    (hS : (stmtKeys r).Nodup)
    (hnotarg : sid ∉ argKeys r) :
    sid ∈ effectIds (buildSpeakerMutations data filters) Effect.emphasize ∧
    sid ∉ effectIds (buildSpeakerMutations data filters) Effect.dim := by
  have hq : stmtMatches (allFilterTags l) (sid, st) = true := by
    simp [stmtMatches, htags, hasSpeakerTag]
  constructor
  · rw [emphasizeIds_eq data filters r l hr hl hne]
    apply mem_speakerClassification_fst_of_acc
    apply List.mem_append_right
    exact List.mem_map.mpr ⟨(sid, st), List.mem_filter.mpr ⟨hmem, hq⟩, rfl⟩
  · rw [dimIds_eq data filters r l hr hl hne, speakerClassification_snd]
    intro hx
    rcases List.mem_append.mp hx with h | h
    · exact hnotarg (mem_map_fst_filter_sub _ _ _ h)
    · exact map_fst_filter_not_both _ hS (stmtMatches (allFilterTags l)) sid
        (List.mem_map.mpr ⟨(sid, st), List.mem_filter.mpr ⟨hmem, hq⟩, rfl⟩) h

/-- Witness for amended C3, at the spec example: the untagged statement `a` is
emphasized and not dimmed. -/
theorem untagged_statement_emphasized_check :
    "a" ∈ effectIds (buildSpeakerMutations exDataX exFiltersX)
      Effect.emphasize ∧
    "a" ∉ effectIds (buildSpeakerMutations exDataX exFiltersX) Effect.dim :=
  untagged_statement_emphasized exDataX exFiltersX exResponseX ["x"] "a" ⟨none⟩
    rfl rfl (by decide) (by decide) rfl (by decide) (by decide)

/-- C4: for every requested speaker `s`, the filter-match set contains both
`speaker-` concatenated with `s` and the bare `s`; consequently an argument
carrying a hyphen-free tag equal to a requested speaker name has its
identifier in the emphasize mutation. -/
theorem filter_match_set_covers_bare_speaker (data : ArgdownMapData)
    (filters : FilterOptions) (r : Response) (l : List String)
    (aid : String) (arg : TaggedItem) (s : String)
    (hr : data.response = some r) (hl : filters.speakers = some l)
    (hs : s ∈ l) (hmem : (aid, arg) ∈ r.arguments.getD [])
    (htag : s ∈ arg.tags.getD []) (_hnh : strContainsChar s '-' = false) :
    ("speaker-" ++ s) ∈ allFilterTags l ∧ s ∈ allFilterTags l ∧
    aid ∈ effectIds (buildSpeakerMutations data filters) Effect.emphasize := by
  have hne : l.isEmpty = false := by
    cases l with
    | nil => cases hs
    | cons a l => rfl
  refine ⟨?_, ?_, ?_⟩
  · exact List.mem_append_left _ (List.mem_map.mpr ⟨s, hs, rfl⟩)
  · exact List.mem_append_right _ hs
  · rw [emphasizeIds_eq data filters r l hr hl hne]
    apply mem_speakerClassification_fst_of_acc
    apply List.mem_append_left
    refine List.mem_map.mpr ⟨(aid, arg), List.mem_filter.mpr ⟨hmem, ?_⟩, rfl⟩
    simp only [argMatches, matchesFilter, List.any_eq_true]
    refine ⟨s, List.mem_append_right _ hs, ?_⟩
    simp [htag]

/-- Witness for C4, at the spec example with the hyphen-free informal tag
`alice`. -/
theorem filter_match_set_covers_bare_speaker_check :
    ("speaker-" ++ "alice") ∈ allFilterTags ["alice"] ∧
    "alice" ∈ allFilterTags ["alice"] ∧
    "b" ∈ effectIds (buildSpeakerMutations exDataAlice exFiltersAlice)
      Effect.emphasize :=
  filter_match_set_covers_bare_speaker exDataAlice exFiltersAlice
    exResponseAlice ["alice"] "b" ⟨some ["alice"]⟩ "alice" rfl rfl
    (by decide) (by decide) (by decide) (by decide)

/-- C5 counterexample: the rendered map holds two node records with the id
`g`; the first record's tags do not intersect the filter-match set and `g` is
neither an argument nor a statement key, yet `g` is carried by the emphasize
mutation (the second record matches). -/
theorem unclassified_node_emphasized_example :
    (⟨"g", some []⟩ : MapNode) ∈ (exResponseG.map.bind MapData.nodes).getD [] ∧
    matchesFilter (allFilterTags ["a"])
      ((⟨"g", some []⟩ : MapNode).tags.getD []) = false ∧
    "g" ∉ argKeys exResponseG ∧ "g" ∉ stmtKeys exResponseG ∧
    "g" ∈ effectIds (buildSpeakerMutations exDataG exFiltersA)
      Effect.emphasize := by decide

/-- C5 (amended): a rendered-graph node whose id is neither an argument key
nor a statement key and whose own tags do not intersect the filter-match set
appears in neither mutation, provided the rendered node ids are pairwise
distinct (two node records sharing an id defeat the claim). -/
theorem unmatched_extra_node_unclassified (data : ArgdownMapData)
    (filters : FilterOptions) (r : Response) (node : MapNode)
    (hr : data.response = some r)
    (hnode : node ∈ (r.map.bind MapData.nodes).getD [])
    (hnd : (mapNodeIds r).Nodup)
    (hnotarg : node.id ∉ argKeys r) (hnotstmt : node.id ∉ stmtKeys r)
    (hnomatch : matchesFilter (allFilterTags (filters.speakers.getD []))
      (node.tags.getD []) = false) :
    node.id ∉ effectIds (buildSpeakerMutations data filters)
      Effect.emphasize ∧
    node.id ∉ effectIds (buildSpeakerMutations data filters) Effect.dim := by
  cases hl : filters.speakers with
  | none =>
    rw [bSM_nil_cases data filters (Or.inr (Or.inl hl))]
    constructor <;> simp [effectIds]
  | some l =>
    rw [hl, Option.getD_some] at hnomatch
    cases hne : l.isEmpty
    case true =>
      rw [List.isEmpty_iff.mp hne] at hl
      rw [bSM_nil_cases data filters (Or.inr (Or.inr hl))]
      constructor <;> simp [effectIds]
    case false =>
      constructor
      · rw [emphasizeIds_eq data filters r l hr hl hne]
        intro hx
        rcases mem_speakerClassification_fst r l node.id hx with h | ⟨n, hn, hid, hm⟩
        · rcases List.mem_append.mp h with h' | h'
          · exact hnotarg (mem_map_fst_filter_sub _ _ _ h')
          · exact hnotstmt (mem_map_fst_filter_sub _ _ _ h')
        · have heq : n = node := List.inj_on_of_nodup_map hnd hn hnode hid
          subst heq
          rw [hm] at hnomatch
          simp at hnomatch
      · rw [dimIds_eq data filters r l hr hl hne, speakerClassification_snd]
        intro hx
        rcases List.mem_append.mp hx with h | h
        · exact hnotarg (mem_map_fst_filter_sub _ _ _ h)
        · exact hnotstmt (mem_map_fst_filter_sub _ _ _ h)

/-- Witness for amended C5: a response with one argument `b` tagged
`speaker-x` and one rendered node `h` with no tags, filtered by speaker `x`:
node `h` is in neither mutation. -/
theorem unmatched_extra_node_unclassified_check :
    ("h" : String) ∉ effectIds
      (buildSpeakerMutations
        ⟨some ⟨none, some [("b", ⟨some ["speaker-x"]⟩)], none,
          some ⟨some [⟨"h", none⟩]⟩⟩⟩ exFiltersX) Effect.emphasize ∧
    ("h" : String) ∉ effectIds
      (buildSpeakerMutations
        ⟨some ⟨none, some [("b", ⟨some ["speaker-x"]⟩)], none,
          some ⟨some [⟨"h", none⟩]⟩⟩⟩ exFiltersX) Effect.dim :=
  unmatched_extra_node_unclassified
    ⟨some ⟨none, some [("b", ⟨some ["speaker-x"]⟩)], none,
      some ⟨some [⟨"h", none⟩]⟩⟩⟩ exFiltersX
    ⟨none, some [("b", ⟨some ["speaker-x"]⟩)], none,
      some ⟨some [⟨"h", none⟩]⟩⟩ ⟨"h", none⟩
    rfl (by decide) (by decide) (by decide) (by decide) (by decide)

/-- C6: every emitted mutation list has length at most two, and in the
non-short-circuit case the output is exactly the emphasize mutation (reason
`Speaker: ` with the comma-joined requested speakers, priority 10) when the
matching list is non-empty, followed by the dim mutation (reason
`Not matching filter`, priority 0) when the non-matching list is non-empty. -/
theorem mutation_emission_shape :
    (∀ (data : ArgdownMapData) (filters : FilterOptions),
        (buildSpeakerMutations data filters).length ≤ 2) ∧
    (∀ (data : ArgdownMapData) (filters : FilterOptions) (r : Response)
        (l : List String), data.response = some r →
        filters.speakers = some l → l.isEmpty = false →
        buildSpeakerMutations data filters =
          (if (speakerClassification r l).1.isEmpty then []
           else [⟨(speakerClassification r l).1, Effect.emphasize,
                  "Speaker: " ++ String.intercalate ", " l, 10⟩]) ++
          (if (speakerClassification r l).2.isEmpty then []
           else [⟨(speakerClassification r l).2, Effect.dim,
                  "Not matching filter", 0⟩])) := by
  constructor
  · intro data filters
    cases hd : data.response with
    | none =>
      rw [bSM_nil_cases data filters (Or.inl hd)]
      simp
    | some r =>
      cases hl : filters.speakers with
      | none =>
        rw [bSM_nil_cases data filters (Or.inr (Or.inl hl))]
        simp
      | some l =>
        cases hne : l.isEmpty
        case true =>
          rw [List.isEmpty_iff.mp hne] at hl
          rw [bSM_nil_cases data filters (Or.inr (Or.inr hl))]
          simp
        case false =>
          rw [buildSpeakerMutations_some data filters r l hd hl hne,
            List.length_append]
          have h1 : ∀ (M : List String) (mu : NodeMutation),
              (if M.isEmpty then ([] : List NodeMutation) else [mu]).length ≤ 1 := by
            intro M mu
            split <;> simp
          calc (if (speakerClassification r l).1.isEmpty then ([] : List NodeMutation)
                  else [⟨(speakerClassification r l).1, Effect.emphasize,
                    "Speaker: " ++ String.intercalate ", " l, 10⟩]).length +
                (if (speakerClassification r l).2.isEmpty then ([] : List NodeMutation)
                  else [⟨(speakerClassification r l).2, Effect.dim,
                    "Not matching filter", 0⟩]).length ≤ 1 + 1 :=
              Nat.add_le_add (h1 _ _) (h1 _ _)
            _ = 2 := rfl
  · intro data filters r l hr hl hne
    exact buildSpeakerMutations_some data filters r l hr hl hne

/-- Witness for C6 at the spec example data. -/
theorem mutation_emission_shape_check :
    (buildSpeakerMutations exDataX exFiltersX).length ≤ 2 ∧
    buildSpeakerMutations exDataX exFiltersX =
      (if (speakerClassification exResponseX ["x"]).1.isEmpty then []
       else [⟨(speakerClassification exResponseX ["x"]).1, Effect.emphasize,
              "Speaker: " ++ String.intercalate ", " ["x"], 10⟩]) ++
      (if (speakerClassification exResponseX ["x"]).2.isEmpty then []
       else [⟨(speakerClassification exResponseX ["x"]).2, Effect.dim,
              "Not matching filter", 0⟩]) :=
  ⟨mutation_emission_shape.1 exDataX exFiltersX,
   mutation_emission_shape.2 exDataX exFiltersX exResponseX ["x"] rfl rfl
     (by decide)⟩

/-- C7: for every data input, the sequence returned by `extractSpeakers` is
sorted in ascending lexicographic order and contains no duplicate entries. -/
theorem extractSpeakers_sorted_nodup (data : ArgdownMapData) :
    List.Sorted (fun a b : String => a ≤ b) (extractSpeakers data) ∧
    (extractSpeakers data).Nodup := by
  unfold extractSpeakers
  cases data.response with
  | none => exact ⟨List.sorted_nil, List.nodup_nil⟩
  | some response =>
    refine ⟨mergeSort_sorted_le _, mergeSort_nodup_le _ ?_⟩
    apply foldl_nodup
    · intro acc p h
      exact addItemTags_nodup acc p.2 h
    · apply foldl_nodup
      · intro acc p h
        exact addItemTags_nodup acc p.2 h
      · exact addResponseTags_nodup response.tags

/-- C8 counterexample: on the spec example input, the emphasize mutation's
node id sequence is not `[a, b]` (arguments are classified before statements,
so it is `[b, a]`). -/
theorem example_emphasize_order_cex :
    effectIds (buildSpeakerMutations exDataX exFiltersX) Effect.emphasize ≠
      ["a", "b"] := by decide

/-- C8 (amended): on the spec example input, `buildSpeakerMutations` emits the
emphasize mutation with node ids `[b, a]` — the same set as the claimed
`[a, b]`, in classification order — and the dim mutation with node ids
`[c]`. -/
theorem example_mutations_value :
    buildSpeakerMutations exDataX exFiltersX =
      [⟨["b", "a"], Effect.emphasize, "Speaker: x", 10⟩,
       ⟨["c"], Effect.dim, "Not matching filter", 0⟩] := by decide

/-- C9: two filter values that agree on `speakers` yield identical mutation
output; the `argumentTypes`, `tags`, `showClaims` and `showArguments` fields
have no effect. -/
theorem mutations_depend_only_on_speakers (data : ArgdownMapData)
    (f1 f2 : FilterOptions) (h : f1.speakers = f2.speakers) :
    buildSpeakerMutations data f1 = buildSpeakerMutations data f2 := by
  unfold buildSpeakerMutations
  rw [h]

/-- Witness for C9: the spec example filter with and without the unrelated
fields set produces the same output. -/
theorem mutations_depend_only_on_speakers_check :
    buildSpeakerMutations exDataX exFiltersX =
      buildSpeakerMutations exDataX exFiltersXFull :=
  mutations_depend_only_on_speakers exDataX exFiltersX exFiltersXFull rfl

/-- C10: every node identifier appearing in any emitted mutation occurs in the
input: it is an argument key, a statement key, or the id of a rendered-graph
node. -/
theorem mutation_ids_from_input (data : ArgdownMapData)
    (filters : FilterOptions) (m : NodeMutation) (x : String)
    (hm : m ∈ buildSpeakerMutations data filters) (hx : x ∈ m.nodeIds) :
    ∃ r, data.response = some r ∧
      (x ∈ argKeys r ∨ x ∈ stmtKeys r ∨ x ∈ mapNodeIds r) := by
  cases hd : data.response with
  | none =>
    rw [bSM_nil_cases data filters (Or.inl hd)] at hm
    cases hm
  | some r =>
    cases hl : filters.speakers with
    | none =>
      rw [bSM_nil_cases data filters (Or.inr (Or.inl hl))] at hm
      cases hm
    | some l =>
      cases hne : l.isEmpty
      case true =>
        rw [List.isEmpty_iff.mp hne] at hl
        rw [bSM_nil_cases data filters (Or.inr (Or.inr hl))] at hm
        cases hm
      case false =>
        refine ⟨r, rfl, ?_⟩
        rw [buildSpeakerMutations_some data filters r l hd hl hne] at hm
        rcases List.mem_append.mp hm with h | h
        · have hM : m.nodeIds = (speakerClassification r l).1 := by
            split at h
            · cases h
            · rw [List.mem_singleton.mp h]
          rw [hM] at hx
          rcases mem_speakerClassification_fst r l x hx with h' | ⟨n, hn, hid, _⟩
          · rcases List.mem_append.mp h' with h'' | h''
            · exact Or.inl (mem_map_fst_filter_sub _ _ _ h'')
            · exact Or.inr (Or.inl (mem_map_fst_filter_sub _ _ _ h''))
          · exact Or.inr (Or.inr (List.mem_map.mpr ⟨n, hn, hid⟩))
        · have hN : m.nodeIds = (speakerClassification r l).2 := by
            split at h
            · cases h
            · rw [List.mem_singleton.mp h]
          rw [hN, speakerClassification_snd] at hx
          rcases List.mem_append.mp hx with h'' | h''
          · exact Or.inl (mem_map_fst_filter_sub _ _ _ h'')
          · exact Or.inr (Or.inl (mem_map_fst_filter_sub _ _ _ h''))

/-- Witness for C10: the id `c` carried by the dim mutation of the spec
example is an argument key of the input. -/
theorem mutation_ids_from_input_check :
    ∃ r, exDataX.response = some r ∧
      ("c" ∈ argKeys r ∨ "c" ∈ stmtKeys r ∨ "c" ∈ mapNodeIds r) :=
  mutation_ids_from_input exDataX exFiltersX
    ⟨["c"], Effect.dim, "Not matching filter", 0⟩ "c" (by decide) (by decide)

end ArgdownPanels
